import Mathlib

/-!
Verification of `src/mcp_server_neurolorap/server.py`.

The file shallowly embeds the server module. Python exceptions become an
explicit `PyExc` type covering the exception classes the module names in its
`except` clauses, plus `otherExc` for any other subclass of `Exception` and
`keyboardInterrupt` for the one named class that is a `BaseException` but not
an `Exception` (in Python, `except Exception` does not catch
`KeyboardInterrupt`). The collaborators that live outside this module
(`JsonRpcTerminal.parse_request`, `JsonRpcTerminal.handle_command`,
`CodeCollector.collect_code`) are passed in as oracle parameters: the
module's behaviour depends on them only through their results, so every
theorem quantifies over them.
-/

set_option autoImplicit false

namespace Neurolorap

/-- Exceptions that can cross the boundaries the module guards with `except`
clauses. `fileNotFound`, `permissionError`, `osError`, `valueError`,
`typeError`, `eofError` and `otherExc` are subclasses of Python's
`Exception`; `keyboardInterrupt` is a `BaseException` that is not an
`Exception`. The `String` argument is the exception's message, the value of
`str(e)`. -/
inductive PyExc where
  | fileNotFound (msg : String)
  | permissionError (msg : String)
  | osError (msg : String)
  | valueError (msg : String)
  | typeError (msg : String)
  | eofError (msg : String)
  | otherExc (msg : String)
  | keyboardInterrupt
deriving DecidableEq, Repr

/-- Message of the exception, the rendering `str(e)` used by the module's
f-strings (`KeyboardInterrupt` has no message text here). -/
def PyExc.excMsg : PyExc → String
  | .fileNotFound m => m
  | .permissionError m => m
  | .osError m => m
  | .valueError m => m
  | .typeError m => m
  | .eofError m => m
  | .otherExc m => m
  | .keyboardInterrupt => ""

/-- Matched by the clause `except (FileNotFoundError, PermissionError, OSError)`
(in Python the first two are subclasses of `OSError`, so the clause is the
whole `OSError` family). -/
def PyExc.isOSErrorFamily : PyExc → Bool
  | .fileNotFound _ => true
  | .permissionError _ => true
  | .osError _ => true
  | _ => false

/-- Matched by one of the five exception classes `code_collector` names in its
specific `except` clauses. -/
def PyExc.isNamedHandled : PyExc → Bool
  | .fileNotFound _ => true
  | .permissionError _ => true
  | .osError _ => true
  | .valueError _ => true
  | .typeError _ => true
  | _ => false

/-- True exactly for subclasses of Python's `Exception`, the exceptions that
`except Exception` catches; `KeyboardInterrupt` subclasses only
`BaseException` and is not caught by it. -/
def PyExc.isExceptionClass : PyExc → Bool
  | .keyboardInterrupt => false
  | _ => true

/-- Matched by the clause `except (KeyboardInterrupt, EOFError)` of
`run_dev_mode`. -/
def PyExc.isTermSignal : PyExc → Bool
  | .keyboardInterrupt => true
  | .eofError _ => true
  | _ => false

/-!
### get_project_root

The environment variable `MCP_PROJECT_ROOT` is modelled as an
`Option String` (`none` for unset) and the current working directory as a
`String`. Python's `if not project_root_str` is the truthiness test on
`Optional[str]`: true for `None` and for the empty string. The function
returns the resolved root paired with the environment variable's value after
the call.
-/

/-- Embedding of `get_project_root` (server.py lines 21-29): read
`MCP_PROJECT_ROOT`; if it is unset or empty, record the current directory
into the environment and return it, else return the recorded path with the
environment untouched. -/
def get_project_root (cwd : String) (env : Option String) : String × Option String :=
  match env with
  | none => (cwd, some cwd)
  | some s => if s = "" then (cwd, some cwd) else (s, some s)

/-!
### code_collector

The body of the `try` block calls `get_project_root`, constructs a
`CodeCollector` and calls `collect_code(input_path, title)`; none of those
collaborators is part of this module, so the embedding takes the joint
outcome of the block as a parameter: either an exception, or the value of
`output_file` (`none` models Python `None`; `if not output_file` is the
truthiness test, true for `None` and for an empty string). The result pairs
the returned string with the list of warning/error log messages the handler
emitted (`logger.warning` / `logger.error`); an uncaught exception
propagates as `Except.error`. -/
def code_collector (tryOutcome : Except PyExc (Option String)) :
    Except PyExc (String × List String) :=
  match tryOutcome with
  | .ok output_file =>
      if output_file = none ∨ output_file = some "" then
        .ok ("No files found to process or error occurred", [])
      else
        .ok ("Code collection complete!\nOutput file: " ++ output_file.getD "", [])
  | .error e =>
      if e.isOSErrorFamily then
        .ok ("File system error collecting code: " ++ e.excMsg,
             ["File system error collecting code: " ++ e.excMsg])
      else
        match e with
        | .valueError m => .ok ("Invalid input: " ++ m, ["Invalid input: " ++ m])
        | .typeError m => .ok ("Type error: " ++ m, ["Type error: " ++ m])
        | e =>
            if e.isExceptionClass then
              .ok ("An unexpected error occurred. Check server logs.",
                   ["Unexpected error collecting code: " ++ e.excMsg])
            else
              .error e

/-!
### run_dev_mode

`parse_request` returns `Optional[dict]`; the dict is modelled by `Request`
keeping the one key the loop reads, `method` (absent key modelled as
`none`). `handle_command` returns a response dict; `Response.error` is
`none` when the `"error"` key is absent, `some none` when it is present with
value `None`, and `some (some e)` when present with a non-`None` value `e`;
`Response.result` is `none` when the `"result"` key is absent, else the text
that printing the value would show. Both calls may raise, hence `Except`.
-/

/-- Value stored under a present, non-`None` `"error"` key: a dict carrying a
`"message"` entry, a dict without one, or a non-dict value. -/
inductive ErrField where
  | dictWithMessage (message : String)
  | dictNoMessage
  | nonDict
deriving DecidableEq, Repr

/-- Request dict as the loop sees it: `request.get("method")`. -/
structure Request where
  method : Option String
deriving DecidableEq, Repr

/-- Response dict as the loop sees it (see the section comment for the
encoding of the `"error"` and `"result"` keys). -/
structure Response where
  error : Option (Option ErrField)
  result : Option String
deriving DecidableEq, Repr

/-- Embedding of the rendering step (server.py lines 112-117): if the
`"error"` key is present with a non-`None` value, print `Error: <message>`
when that value is a dict with a `"message"` entry (and nothing otherwise);
else if the `"result"` key is present, print its value. Returns the list of
printed lines. -/
def renderResponse (r : Response) : List String :=
  match r.error with
  | some (some e) =>
      match e with
      | .dictWithMessage m => ["Error: " ++ m]
      | _ => []
  | _ =>
      match r.result with
      | some v => [v]
      | none => []

/-- Event produced by `input("> ")`: a line of text, or the call raising
`EOFError` (end of input) or `KeyboardInterrupt`. -/
inductive InputEvent where
  | line (s : String)
  | eof
  | interrupt
deriving DecidableEq, Repr

/-- Outcome of one pass through the `while True` body: continue to the next
read, or break out of the loop; either way with the lines printed during the
pass (the prompt and the final `Exiting developer mode` banner are not
part of the body's printed lines). -/
inductive IterResult where
  | next (printed : List String)
  | halt (printed : List String)
deriving DecidableEq, Repr

/-- Embedding of the `except` clauses of `run_dev_mode` (server.py lines
122-130), applied to an exception raised anywhere in the loop body:
`KeyboardInterrupt`/`EOFError` break; `ValueError`, `TypeError` and every
other `Exception` print one message and continue. (Every `PyExc` constructor
is caught by one of the four clauses.) -/
def loopExcHandler (e : PyExc) : IterResult :=
  if e.isTermSignal then .halt []
  else
    match e with
    | .valueError m => .next ["Value error: " ++ m]
    | .typeError m => .next ["Type error: " ++ m]
    | e => .next ["Unexpected error: " ++ e.excMsg]

/-- Embedding of one iteration of the `run_dev_mode` loop body (server.py
lines 99-130), parameterised by the terminal's `parse_request` and
`handle_command` oracles: read an event; on a line, skip empty lines, parse
(a `None` request prints the invalid-format notice), dispatch, render, and
break when the request's `method` is `"exit"`; exceptions raised by the
oracles go through `loopExcHandler`. -/
def devIteration (parseReq : String → Except PyExc (Option Request))
    (handleCmd : Request → Except PyExc Response) : InputEvent → IterResult
  | .eof => .halt []
  | .interrupt => .halt []
  | .line l =>
    if l = "" then .next []
    else
      match parseReq l with
      | .error e => loopExcHandler e
      | .ok none => .next ["Invalid command format"]
      | .ok (some req) =>
          match handleCmd req with
          | .error e => loopExcHandler e
          | .ok resp =>
              let printed := renderResponse resp
              if req.method = some "exit" then .halt printed else .next printed

/-- True when the iteration ends the loop. -/
def devIterBreaks (parseReq : String → Except PyExc (Option Request))
    (handleCmd : Request → Except PyExc Response) (ev : InputEvent) : Bool :=
  match devIteration parseReq handleCmd ev with
  | .halt _ => true
  | .next _ => false

/-- Whole-session run of `run_dev_mode` over a finite script of input
events: returns the lines printed by the loop body and whether the loop was
ended by a `break` before the script ran out. -/
def runDevLoop (parseReq : String → Except PyExc (Option Request))
    (handleCmd : Request → Except PyExc Response) :
    List InputEvent → List String × Bool
  | [] => ([], false)
  | ev :: rest =>
      match devIteration parseReq handleCmd ev with
      | .halt out => (out, true)
      | .next out =>
          let r := runDevLoop parseReq handleCmd rest
          (out ++ r.1, r.2)

/-- Oracle standing for a `parse_request` that returns `None` on every line. -/
def parseNoneOracle : String → Except PyExc (Option Request) := fun _ => Except.ok none

/-- Oracle standing for a `parse_request` that raises `EOFError` on every
line (for example a parser that itself reads from the exhausted stream). -/
def parseEofOracle : String → Except PyExc (Option Request) :=
  fun _ => Except.error (PyExc.eofError "stdin closed")

/-- Oracle standing for a `handle_command` that returns a plain success
response on every request. -/
def handleOkOracle : Request → Except PyExc Response :=
  fun _ => Except.ok ⟨none, some "ok"⟩

/-- Claim C1 as stated, restricted to the part the code decides: an
exception raised during parsing (of a non-empty line) always makes the loop
print one message and continue. -/
def C1Stated : Prop :=
  ∀ (parseReq : String → Except PyExc (Option Request))
    (handleCmd : Request → Except PyExc Response) (l : String) (e : PyExc),
    l ≠ "" → parseReq l = Except.error e →
    ∃ m : String, devIteration parseReq handleCmd (.line l) = .next [m]

/-- Claim C2 as stated: every exception other than the five named classes
makes `code_collector` return the fixed opaque message (so in particular it
never propagates). -/
def C2Stated : Prop :=
  ∀ e : PyExc, e.isNamedHandled = false →
    ∃ logs : List String,
      code_collector (.error e) =
        .ok ("An unexpected error occurred. Check server logs.", logs)

/-- Exceptions whose `except` clause in `run_dev_mode` prints one message
and continues the loop. -/
theorem loopExcHandler_next (e : PyExc) (h : e.isTermSignal = false) :
    ∃ m : String, loopExcHandler e = .next [m] := by
  cases e with
  | valueError m => exact ⟨"Value error: " ++ m, rfl⟩
  | typeError m => exact ⟨"Type error: " ++ m, rfl⟩
  | fileNotFound m => exact ⟨"Unexpected error: " ++ m, rfl⟩
  | permissionError m => exact ⟨"Unexpected error: " ++ m, rfl⟩
  | osError m => exact ⟨"Unexpected error: " ++ m, rfl⟩
  | otherExc m => exact ⟨"Unexpected error: " ++ m, rfl⟩
  | eofError m => simp [PyExc.isTermSignal] at h
  | keyboardInterrupt => simp [PyExc.isTermSignal] at h

/-- Exceptions whose `except` clause in `run_dev_mode` breaks the loop. -/
theorem loopExcHandler_halt (e : PyExc) (h : e.isTermSignal = true) :
    loopExcHandler e = .halt [] := by
  simp [loopExcHandler, h]

/-- C3: when the collaborator raises a `FileNotFoundError`, `PermissionError`
or `OSError`, `code_collector` returns (and logs) the string
`File system error collecting code: <details>` with the exception's own
message, and no exception propagates. -/
theorem code_collector_fs_error (e : PyExc) (he : e.isOSErrorFamily = true) :
    code_collector (.error e) =
      .ok ("File system error collecting code: " ++ e.excMsg,
           ["File system error collecting code: " ++ e.excMsg]) := by
  cases e <;> simp_all [code_collector, PyExc.isOSErrorFamily, PyExc.excMsg]

/-- Witness for C3 at a concrete `FileNotFoundError`. -/
theorem code_collector_fs_error_witness :
    code_collector (.error (.fileNotFound "no such file or directory")) =
      .ok ("File system error collecting code: no such file or directory",
           ["File system error collecting code: no such file or directory"]) :=
  code_collector_fs_error (.fileNotFound "no such file or directory") rfl

/-- C4: when the collaborator returns an empty or falsy result (`None`, or
the empty string), `code_collector` returns the no-output message and does
not raise. -/
theorem code_collector_no_output :
    code_collector (.ok none) = .ok ("No files found to process or error occurred", []) ∧
    code_collector (.ok (some "")) =
      .ok ("No files found to process or error occurred", []) := by
  constructor <;> simp [code_collector]

/-- C5: when the collaborator returns a non-empty output path `p`,
`code_collector` returns exactly the success string carrying `p`. -/
theorem code_collector_output_path (p : String) (hp : p ≠ "") :
    code_collector (.ok (some p)) =
      .ok ("Code collection complete!\nOutput file: " ++ p, []) := by
  simp [code_collector, hp]

/-- Witness for C5 at a concrete path. -/
theorem code_collector_output_path_witness :
    code_collector (.ok (some "/project/code.md")) =
      .ok ("Code collection complete!\nOutput file: /project/code.md", []) :=
  code_collector_output_path "/project/code.md" (by decide)

/-- C6: rendering prints exactly one line, and under the invariant that a
response carries exactly one of `result` and `error` (with `error` a dict of
shape `{message}`), the printed line is the error message when `error` is
present and the result otherwise. -/
theorem renderResponse_exclusive (r : Response) (m v : String) :
    (r.error = some (some (ErrField.dictWithMessage m)) → r.result = none →
        renderResponse r = ["Error: " ++ m]) ∧
    (r.error = none → r.result = some v → renderResponse r = [v]) := by
  constructor
  · intro he _
    simp [renderResponse, he]
  · intro he hv
    simp [renderResponse, he, hv]

/-- Witness for C6 on one error-shaped and one result-shaped response. -/
theorem renderResponse_exclusive_witness :
    renderResponse ⟨some (some (.dictWithMessage "boom")), none⟩ = ["Error: boom"] ∧
    renderResponse ⟨none, some "done"⟩ = ["done"] :=
  ⟨(renderResponse_exclusive ⟨some (some (.dictWithMessage "boom")), none⟩ "boom" "x").1
      rfl rfl,
   (renderResponse_exclusive ⟨none, some "done"⟩ "x" "done").2 rfl rfl⟩

/-- C7: a non-empty line the parser maps to `None` prints the fixed
invalid-format notice and continues; the dispatcher oracle is arbitrary, so
it is never consulted. -/
theorem devIteration_unparseable (parseReq : String → Except PyExc (Option Request))
    (handleCmd : Request → Except PyExc Response) (l : String)
    (hl : l ≠ "") (hp : parseReq l = Except.ok none) :
    devIteration parseReq handleCmd (.line l) = .next ["Invalid command format"] := by
  simp [devIteration, hl, hp]

/-- Witness for C7 on a concrete unparseable line. -/
theorem devIteration_unparseable_witness :
    devIteration parseNoneOracle handleOkOracle (.line "@@@") =
      .next ["Invalid command format"] :=
  devIteration_unparseable parseNoneOracle handleOkOracle "@@@" (by decide) rfl

/-- C8: an empty input line continues the loop printing nothing; both
oracles are arbitrary, so neither the parser nor the dispatcher is
consulted. -/
theorem devIteration_empty_line (parseReq : String → Except PyExc (Option Request))
    (handleCmd : Request → Except PyExc Response) :
    devIteration parseReq handleCmd (.line "") = .next [] := by
  simp [devIteration]

/-- C9: with `MCP_PROJECT_ROOT` set non-empty, `get_project_root` returns it
and leaves the environment unchanged; unset or empty, it returns the current
directory and records it into the environment. -/
theorem get_project_root_env (cwd s : String) (hs : s ≠ "") :
    get_project_root cwd (some s) = (s, some s) ∧
    get_project_root cwd none = (cwd, some cwd) ∧
    get_project_root cwd (some "") = (cwd, some cwd) := by
  refine ⟨?_, rfl, by simp [get_project_root]⟩
  simp [get_project_root, hs]

/-- Witness for C9 at concrete paths. -/
theorem get_project_root_env_witness :
    get_project_root "/home/user/project" (some "/srv/root") =
        ("/srv/root", some "/srv/root") ∧
    get_project_root "/home/user/project" none =
        ("/home/user/project", some "/home/user/project") ∧
    get_project_root "/home/user/project" (some "") =
        ("/home/user/project", some "/home/user/project") :=
  get_project_root_env "/home/user/project" "/srv/root" (by decide)

/-- C10: after any call of `get_project_root` (the working directory being
non-empty, as `Path.cwd()` always is), the environment variable holds the
returned path, that path is non-empty, and every later call returns the same
path without writing to the environment again, whatever the working
directory then is. -/
theorem get_project_root_idempotent (cwd : String) (env : Option String)
    (hcwd : cwd ≠ "") :
    (get_project_root cwd env).2 = some (get_project_root cwd env).1 ∧
    (get_project_root cwd env).1 ≠ "" ∧
    ∀ cwd2 : String,
      get_project_root cwd2 (get_project_root cwd env).2 =
        ((get_project_root cwd env).1, (get_project_root cwd env).2) := by
  match env with
  | none =>
      exact ⟨rfl, hcwd, fun cwd2 => by simp [get_project_root, hcwd]⟩
  | some s =>
      by_cases hs : s = ""
      · subst hs
        exact ⟨by simp [get_project_root], by simpa [get_project_root] using hcwd,
          fun cwd2 => by simp [get_project_root, hcwd]⟩
      · exact ⟨by simp [get_project_root, hs], by simp [get_project_root, hs],
          fun cwd2 => by simp [get_project_root, hs]⟩

/-- Witness for C10: one concrete first call and one concrete later call. -/
theorem get_project_root_idempotent_witness :
    (get_project_root "/home/user" none).2 = some (get_project_root "/home/user" none).1 ∧
    get_project_root "/tmp" (get_project_root "/home/user" none).2 =
      ((get_project_root "/home/user" none).1, (get_project_root "/home/user" none).2) :=
  ⟨(get_project_root_idempotent "/home/user" none (by decide)).1,
   (get_project_root_idempotent "/home/user" none (by decide)).2.2 "/tmp"⟩

/-- C2 counterexample: `code_collector` does not return the opaque message
for every exception outside the five named classes — a `KeyboardInterrupt`
raised by the collaborator is not caught by `except Exception` and
propagates to the caller. -/
theorem code_collector_interrupt_propagates : ¬ C2Stated := by
  intro h
  rcases h PyExc.keyboardInterrupt rfl with ⟨logs, hlogs⟩
  simp [code_collector, C2Stated, PyExc.isOSErrorFamily, PyExc.isExceptionClass] at hlogs

/-- C2 (amended): for every exception outside the five named classes that is
a subclass of `Exception`, `code_collector` returns the fixed opaque message
(independent of the exception, so carrying no detail of it) while logging
the exception's message server-side, and nothing propagates; only a
`BaseException` outside `Exception` (`KeyboardInterrupt`) propagates. -/
theorem code_collector_unexpected (e : PyExc)
    (h1 : e.isNamedHandled = false) (h2 : e.isExceptionClass = true) :
    code_collector (.error e) =
      .ok ("An unexpected error occurred. Check server logs.",
           ["Unexpected error collecting code: " ++ e.excMsg]) := by
  cases e <;> simp_all [code_collector, PyExc.isNamedHandled, PyExc.isExceptionClass,
    PyExc.isOSErrorFamily, PyExc.excMsg]

/-- Witness for C2 at a concrete unexpected `Exception`. -/
theorem code_collector_unexpected_witness :
    code_collector (.error (.otherExc "database connection lost")) =
      .ok ("An unexpected error occurred. Check server logs.",
           ["Unexpected error collecting code: database connection lost"]) :=
  code_collector_unexpected (.otherExc "database connection lost") rfl rfl

/-- C1 counterexample: an exception raised during parsing does not always
print a message and continue — an `EOFError` raised by the parser of a
non-empty line is caught by `except (KeyboardInterrupt, EOFError)` and
breaks the loop, printing nothing. -/
theorem run_dev_mode_parse_eof_halts : ¬ C1Stated := by
  intro h
  rcases h parseEofOracle handleOkOracle "help" (.eofError "stdin closed") (by decide) rfl
    with ⟨m, hm⟩
  simp [devIteration, parseEofOracle, loopExcHandler, PyExc.isTermSignal] at hm

/-- C1 (amended): an iteration of the `run_dev_mode` loop breaks exactly
when the read raises end-of-input or interrupt, or the parser or dispatcher
raises `EOFError`/`KeyboardInterrupt`, or dispatch returns normally for a
request whose method is `exit`; every other exception from the parser or the
dispatcher prints exactly one message and continues; and a whole session
terminates by `break` exactly when some input event of its script makes its
iteration break. -/
theorem run_dev_mode_break_iff (parseReq : String → Except PyExc (Option Request))
    (handleCmd : Request → Except PyExc Response) :
    (∀ ev : InputEvent,
      devIterBreaks parseReq handleCmd ev = true ↔
        ev = .eof ∨ ev = .interrupt ∨
        ∃ l : String, ev = .line l ∧ l ≠ "" ∧
          ((∃ e, parseReq l = Except.error e ∧ e.isTermSignal = true) ∨
           (∃ req e, parseReq l = Except.ok (some req) ∧
              handleCmd req = Except.error e ∧ e.isTermSignal = true) ∨
           (∃ req resp, parseReq l = Except.ok (some req) ∧
              handleCmd req = Except.ok resp ∧ req.method = some "exit"))) ∧
    (∀ (l : String) (e : PyExc), l ≠ "" → parseReq l = Except.error e →
      e.isTermSignal = false →
      ∃ m : String, devIteration parseReq handleCmd (.line l) = .next [m]) ∧
    (∀ (l : String) (req : Request) (e : PyExc), l ≠ "" →
      parseReq l = Except.ok (some req) → handleCmd req = Except.error e →
      e.isTermSignal = false →
      ∃ m : String, devIteration parseReq handleCmd (.line l) = .next [m]) ∧
    (∀ evs : List InputEvent,
      (runDevLoop parseReq handleCmd evs).2 = true ↔
        ∃ ev ∈ evs, devIterBreaks parseReq handleCmd ev = true) := by
  refine ⟨?_, ?_, ?_, ?_⟩
  · intro ev
    cases ev with
    | eof => simp [devIterBreaks, devIteration]
    | interrupt => simp [devIterBreaks, devIteration]
    | line l =>
      by_cases hl : l = ""
      · subst hl
        simp [devIterBreaks, devIteration]
      · cases hpe : parseReq l with
        | error e =>
          by_cases hts : e.isTermSignal = true
          · constructor
            · intro _
              exact Or.inr (Or.inr ⟨l, rfl, hl, Or.inl ⟨e, hpe, hts⟩⟩)
            · intro _
              simp [devIterBreaks, devIteration, hl, hpe, loopExcHandler_halt e hts]
          · rcases loopExcHandler_next e (by simpa using hts) with ⟨m, hm⟩
            have hb : devIterBreaks parseReq handleCmd (.line l) = false := by
              simp [devIterBreaks, devIteration, hl, hpe, hm]
            constructor
            · intro htrue
              rw [hb] at htrue
              exact Bool.noConfusion htrue
            · rintro (h | h | ⟨l2, hl2, -, (⟨e2, he2, hts2⟩ | ⟨req, e2, hreq, -, -⟩ |
                ⟨req, resp, hreq, -, -⟩)⟩)
              · exact InputEvent.noConfusion h
              · exact InputEvent.noConfusion h
              · cases InputEvent.line.inj hl2
                rw [hpe] at he2
                cases Except.error.inj he2
                exact absurd hts2 hts
              · cases InputEvent.line.inj hl2
                rw [hpe] at hreq
                exact Except.noConfusion hreq
              · cases InputEvent.line.inj hl2
                rw [hpe] at hreq
                exact Except.noConfusion hreq
        | ok oreq =>
          cases oreq with
          | none =>
            have hb : devIterBreaks parseReq handleCmd (.line l) = false := by
              simp [devIterBreaks, devIteration, hl, hpe]
            constructor
            · intro htrue
              rw [hb] at htrue
              exact Bool.noConfusion htrue
            · rintro (h | h | ⟨l2, hl2, -, (⟨e2, he2, -⟩ | ⟨req, e2, hreq, -, -⟩ |
                ⟨req, resp, hreq, -, -⟩)⟩)
              · exact InputEvent.noConfusion h
              · exact InputEvent.noConfusion h
              · cases InputEvent.line.inj hl2
                rw [hpe] at he2
                exact Except.noConfusion he2
              · cases InputEvent.line.inj hl2
                rw [hpe] at hreq
                exact Option.noConfusion (Except.ok.inj hreq)
              · cases InputEvent.line.inj hl2
                rw [hpe] at hreq
                exact Option.noConfusion (Except.ok.inj hreq)
          | some req =>
            cases hhe : handleCmd req with
            | error e =>
              by_cases hts : e.isTermSignal = true
              · constructor
                · intro _
                  exact Or.inr (Or.inr ⟨l, rfl, hl,
                    Or.inr (Or.inl ⟨req, e, hpe, hhe, hts⟩)⟩)
                · intro _
                  simp [devIterBreaks, devIteration, hl, hpe, hhe,
                    loopExcHandler_halt e hts]
              · rcases loopExcHandler_next e (by simpa using hts) with ⟨m, hm⟩
                have hb : devIterBreaks parseReq handleCmd (.line l) = false := by
                  simp [devIterBreaks, devIteration, hl, hpe, hhe, hm]
                constructor
                · intro htrue
                  rw [hb] at htrue
                  exact Bool.noConfusion htrue
                · rintro (h | h | ⟨l2, hl2, -, (⟨e2, he2, -⟩ | ⟨req2, e2, hreq2, hh2, hts2⟩ |
                    ⟨req2, resp, hreq2, hh2, -⟩)⟩)
                  · exact InputEvent.noConfusion h
                  · exact InputEvent.noConfusion h
                  · cases InputEvent.line.inj hl2
                    rw [hpe] at he2
                    exact Except.noConfusion he2
                  · cases InputEvent.line.inj hl2
                    rw [hpe] at hreq2
                    cases Option.some.inj (Except.ok.inj hreq2)
                    rw [hhe] at hh2
                    cases Except.error.inj hh2
                    exact absurd hts2 hts
                  · cases InputEvent.line.inj hl2
                    rw [hpe] at hreq2
                    cases Option.some.inj (Except.ok.inj hreq2)
                    rw [hhe] at hh2
                    exact Except.noConfusion hh2
            | ok resp =>
              by_cases hm : req.method = some "exit"
              · constructor
                · intro _
                  exact Or.inr (Or.inr ⟨l, rfl, hl,
                    Or.inr (Or.inr ⟨req, resp, hpe, hhe, hm⟩)⟩)
                · intro _
                  simp [devIterBreaks, devIteration, hl, hpe, hhe, hm]
              · have hb : devIterBreaks parseReq handleCmd (.line l) = false := by
                  simp [devIterBreaks, devIteration, hl, hpe, hhe, hm]
                constructor
                · intro htrue
                  rw [hb] at htrue
                  exact Bool.noConfusion htrue
                · rintro (h | h | ⟨l2, hl2, -, (⟨e2, he2, -⟩ | ⟨req2, e2, hreq2, hh2, -⟩ |
                    ⟨req2, resp2, hreq2, hh2, hm2⟩)⟩)
                  · exact InputEvent.noConfusion h
                  · exact InputEvent.noConfusion h
                  · cases InputEvent.line.inj hl2
                    rw [hpe] at he2
                    exact Except.noConfusion he2
                  · cases InputEvent.line.inj hl2
                    rw [hpe] at hreq2
                    cases Option.some.inj (Except.ok.inj hreq2)
                    rw [hhe] at hh2
                    exact Except.noConfusion hh2
                  · cases InputEvent.line.inj hl2
                    rw [hpe] at hreq2
                    cases Option.some.inj (Except.ok.inj hreq2)
                    rw [hhe] at hh2
                    cases Except.ok.inj hh2
                    exact absurd hm2 hm
  · intro l e hl hpe hts
    rcases loopExcHandler_next e hts with ⟨m, hm⟩
    exact ⟨m, by simp [devIteration, if_neg hl, hpe, hm]⟩
  · intro l req e hl hpe hhe hts
    rcases loopExcHandler_next e hts with ⟨m, hm⟩
    exact ⟨m, by simp [devIteration, if_neg hl, hpe, hhe, hm]⟩
  · intro evs
    induction evs with
    | nil => simp [runDevLoop]
    | cons ev rest ih =>
      cases hit : devIteration parseReq handleCmd ev with
      | halt out =>
        simp [runDevLoop, hit, devIterBreaks]
      | next out =>
        simp [runDevLoop, hit, devIterBreaks, ih]

/-- Witness for C1: the break characterisation applied to two concrete
events — end-of-input at the prompt, and a parser raising `EOFError` on a
non-empty line — both of which end the loop. -/
theorem run_dev_mode_break_iff_witness :
    devIterBreaks parseEofOracle handleOkOracle InputEvent.eof = true ∧
    devIterBreaks parseEofOracle handleOkOracle (.line "help") = true :=
  ⟨((run_dev_mode_break_iff parseEofOracle handleOkOracle).1 InputEvent.eof).mpr
      (Or.inl rfl),
   ((run_dev_mode_break_iff parseEofOracle handleOkOracle).1 (.line "help")).mpr
      (Or.inr (Or.inr ⟨"help", rfl, by decide,
        Or.inl ⟨.eofError "stdin closed", rfl, rfl⟩⟩))⟩

end Neurolorap
